import Mathlib

/-!
Verification of the dual-sensor flicker monitor.

The flicker-detection state machine lives in the renderer's
`handleSensorData` / `resetFlickerDetection`; the recipe executor is
`runRecipe`.  Sample values are embedded as rationals; the JavaScript
number semantics relevant here (division by zero producing signed
infinities or NaN, and `Math.abs` / `Math.min` / `Math.max` and
comparisons on such values) is captured by the `JSNum` type.
Timestamps are abstracted to tick indices (one tick per incoming
sample); the event's duration is `endTime - startTime` ticks and is
not modelled separately.
-/

attribute [local semireducible] Rat.mul Rat.inv Rat.add Rat.sub

namespace Blink

/-- `FLICKER_THRESHOLD = 1`: 1% threshold for flicker detection. -/
def FLICKER_THRESHOLD : ℚ := 1

/-- A JavaScript number as produced by the detector's arithmetic:
a finite (exact rational) value, `Infinity`, `-Infinity`, or `NaN`. -/
inductive JSNum where
  | fin (q : ℚ)
  | pinf
  | ninf
  | nan
deriving DecidableEq, Repr

/-- JavaScript division of two finite numbers: exact when the divisor is
nonzero, otherwise a signed infinity (or `NaN` for `0/0`). -/
def jsDiv (a b : ℚ) : JSNum :=
  if b = 0 then
    if 0 < a then JSNum.pinf else if a < 0 then JSNum.ninf else JSNum.nan
  else JSNum.fin (a / b)

/-- Multiplication by the literal `100` (scaling a ratio to percent). -/
def jsMul100 : JSNum → JSNum
  | JSNum.fin q => JSNum.fin (q * 100)
  | JSNum.pinf => JSNum.pinf
  | JSNum.ninf => JSNum.ninf
  | JSNum.nan => JSNum.nan

/-- `Math.abs`. -/
def jsAbs : JSNum → JSNum
  | JSNum.fin q => JSNum.fin |q|
  | JSNum.pinf => JSNum.pinf
  | JSNum.ninf => JSNum.pinf
  | JSNum.nan => JSNum.nan

/-- `x > t` for a finite threshold `t`; false whenever `x` is `NaN`. -/
def jsGt : JSNum → ℚ → Bool
  | JSNum.fin q, t => decide (t < q)
  | JSNum.pinf, _ => true
  | JSNum.ninf, _ => false
  | JSNum.nan, _ => false

/-- `x < t` for a finite threshold `t`; false whenever `x` is `NaN`. -/
def jsLt : JSNum → ℚ → Bool
  | JSNum.fin q, t => decide (q < t)
  | JSNum.pinf, _ => false
  | JSNum.ninf, _ => true
  | JSNum.nan, _ => false

/-- `Math.max` on JavaScript numbers: `NaN` absorbs, then `Infinity`. -/
def jsMax : JSNum → JSNum → JSNum
  | JSNum.nan, _ => JSNum.nan
  | _, JSNum.nan => JSNum.nan
  | JSNum.pinf, _ => JSNum.pinf
  | _, JSNum.pinf => JSNum.pinf
  | JSNum.ninf, y => y
  | x, JSNum.ninf => x
  | JSNum.fin a, JSNum.fin b => JSNum.fin (max a b)

/-- Sensor identifier: the two channels of the monitor. -/
inductive SensorId where
  | sensor1
  | sensor2
deriving DecidableEq, Repr

/-- An open flicker run (`activeFlickers.current[sensorId]` when non-null):
`startTime` (tick), `initialValue` (the pre-excursion baseline),
`minValue`, and the worst absolute percent change seen so far. -/
structure FlickerRun where
  startTime : ℕ
  initialValue : ℚ
  minValue : ℚ
  maxPercentChange : JSNum
deriving DecidableEq, Repr

/-- Per-sensor channel state: `lastValues.current[sensorId]` and
`activeFlickers.current[sensorId]`. -/
structure ChannelState where
  lastValue : Option ℚ
  activeFlicker : Option FlickerRun
deriving DecidableEq, Repr

/-- A closed flicker event as passed to `log-flicker` (duration omitted;
it is `endTime - startTime` ticks). -/
structure FlickerEvent where
  sensor : SensorId
  startTime : ℕ
  endTime : ℕ
  initialValue : ℚ
  minimumValue : ℚ
  percentChange : JSNum
deriving DecidableEq, Repr

/-- The per-sensor body of `handleSensorData` (the `forEach` over
`['sensor1','sensor2']`): given the channel state, that sensor's flicker
count, the current tick and the incoming value, it returns the new
channel state, the new count, and the events emitted at this sample. -/
def stepChannel (sensor : SensorId) (st : ChannelState) (count : ℕ)
    (now : ℕ) (currentValue : ℚ) : ChannelState × ℕ × List FlickerEvent :=
  match st.lastValue with
  | none => ({ st with lastValue := some currentValue }, count, [])
  | some lastValue =>
      let percentChange := jsMul100 (jsDiv (lastValue - currentValue) lastValue)
      let opened : Option FlickerRun :=
        if jsGt (jsAbs percentChange) FLICKER_THRESHOLD && st.activeFlicker.isNone then
          some { startTime := now, initialValue := lastValue,
                 minValue := currentValue, maxPercentChange := jsAbs percentChange }
        else st.activeFlicker
      match opened with
      | none => ({ lastValue := some currentValue, activeFlicker := none }, count, [])
      | some flicker =>
          let flicker := { flicker with
            minValue := min flicker.minValue currentValue,
            maxPercentChange := jsMax flicker.maxPercentChange (jsAbs percentChange) }
          let returnPercentChange :=
            jsMul100 (jsAbs (jsDiv (currentValue - flicker.initialValue) flicker.initialValue))
          if jsLt returnPercentChange FLICKER_THRESHOLD then
            ({ lastValue := some currentValue, activeFlicker := none }, count + 1,
             [{ sensor := sensor, startTime := flicker.startTime, endTime := now,
                initialValue := flicker.initialValue, minimumValue := flicker.minValue,
                percentChange := flicker.maxPercentChange }])
          else
            ({ lastValue := some currentValue, activeFlicker := some flicker }, count, [])

/-- Fold `stepChannel` over a list of samples, one tick apart, starting
at tick `now`; accumulates all emitted events in order. -/
def processChannel (sensor : SensorId) (st : ChannelState) (count : ℕ)
    (now : ℕ) : List ℚ → ChannelState × ℕ × List FlickerEvent
  | [] => (st, count, [])
  | v :: vs =>
      let r := stepChannel sensor st count now v
      let r2 := processChannel sensor r.1 r.2.1 (now + 1) vs
      (r2.1, r2.2.1, r.2.2 ++ r2.2.2)

/-- Whole-detector state: the session flag `isFlickerDetectionRunning`,
both channel states and both flicker counts. -/
structure DetectorState where
  running : Bool
  sensor1 : ChannelState
  sensor2 : ChannelState
  count1 : ℕ
  count2 : ℕ
deriving DecidableEq, Repr

/-- `handleSensorData` for one incoming `{sensor1, sensor2}` pair:
only evaluates while the session flag is set; processes sensor1 then
sensor2 with the same timestamp. -/
def handleSensorData (st : DetectorState) (now : ℕ) (d1 d2 : ℚ) :
    DetectorState × List FlickerEvent :=
  if st.running then
    let r1 := stepChannel SensorId.sensor1 st.sensor1 st.count1 now d1
    let r2 := stepChannel SensorId.sensor2 st.sensor2 st.count2 now d2
    ({ st with sensor1 := r1.1, sensor2 := r2.1,
               count1 := r1.2.1, count2 := r2.2.1 },
     r1.2.2 ++ r2.2.2)
  else (st, [])

/-- Fold `handleSensorData` over a list of sample pairs, one tick apart. -/
def handleSeq (st : DetectorState) (now : ℕ) :
    List (ℚ × ℚ) → DetectorState × List FlickerEvent
  | [] => (st, [])
  | d :: ds =>
      let r := handleSensorData st now d.1 d.2
      let r2 := handleSeq r.1 (now + 1) ds
      (r2.1, r.2 ++ r2.2)

/-- A freshly reset channel. -/
def initialChannel : ChannelState := { lastValue := none, activeFlicker := none }

/-- `resetFlickerDetection`: clears both channels and zeroes both counts
(the session flag is untouched). -/
def resetFlickerDetection (st : DetectorState) : DetectorState :=
  { st with sensor1 := initialChannel, sensor2 := initialChannel,
            count1 := 0, count2 := 0 }

/-- A freshly reset detector with an active session. -/
def freshDetector : DetectorState :=
  { running := true, sensor1 := initialChannel, sensor2 := initialChannel,
    count1 := 0, count2 := 0 }

/-- Scenario A input: sensor1 samples `[100, 100, 80, 100]`, sensor2
held constant at 100. -/
def scenarioA : List (ℚ × ℚ) := [(100, 100), (100, 100), (80, 100), (100, 100)]

/-!
## Recipe executor

`runRecipe` iterates over the recipe steps; each non-delay step performs
one `ipcRenderer.invoke` round trip.  The environment is modelled as a
stream of IPC outcomes, one per invocation: the promise either resolves
with a `{success, error}` object (as the main-process handlers do) or
rejects, which surfaces in the renderer as a thrown error.  The executor
produces a trace of externally visible events: invocations and timed
suspensions (in milliseconds).
-/

/-- A recipe step (`step.type` in the source; `delay` carries
`step.duration` in seconds). -/
inductive RecipeStep where
  | startFlicker
  | endFlicker
  | connectUSB
  | disconnectUSB
  | sleep
  | wake
  | delay (duration : ℚ)
deriving DecidableEq, Repr

/-- An IPC invocation target: `send-command` with its control character,
or the start/stop flicker-detection handlers. -/
inductive Cmd where
  | sendCommand (c : Char)
  | startFlickerDetection
  | stopFlickerDetection
deriving DecidableEq, Repr

/-- Externally visible execution events: an IPC invocation, or a timed
suspension of `ms` milliseconds (`setTimeout`). -/
inductive TraceEv where
  | invoke (c : Cmd)
  | wait (ms : ℚ)
deriving DecidableEq, Repr

/-- Outcome of one `ipcRenderer.invoke` round trip: the promise resolves
with a `{success, error}` object, or rejects with a message. -/
inductive IpcResult where
  | resolved (success : Bool) (error : String)
  | rejected (message : String)
deriving DecidableEq, Repr

/-- Renderer state relevant to the executor: `isRunningRecipe`,
`isFlickerDetectionRunning` and the `status` string.  (On a successful
start toggle the source also resets the detector; that touches only
`DetectorState` and is not needed for the executor claims.) -/
structure RState where
  isRunningRecipe : Bool
  isFlickerDetectionRunning : Bool
  status : String
deriving DecidableEq, Repr

/-- `toggleFlickerDetection`: invokes start or stop detection depending
on the current flag; on a resolved success it flips the flag and sets
the status; on a resolved failure it only sets an error status; a
rejected promise propagates as a thrown error (third component). -/
def toggleFlickerDetection (st : RState) (res : IpcResult) :
    RState × Cmd × Option String :=
  if st.isFlickerDetectionRunning = false then
    match res with
    | IpcResult.resolved true _ =>
        ({ st with isFlickerDetectionRunning := true,
                   status := "Flicker Detection Running" },
         Cmd.startFlickerDetection, none)
    | IpcResult.resolved false e =>
        ({ st with status := "Error: " ++ e }, Cmd.startFlickerDetection, none)
    | IpcResult.rejected m => (st, Cmd.startFlickerDetection, some m)
  else
    match res with
    | IpcResult.resolved true _ =>
        ({ st with isFlickerDetectionRunning := false,
                   status := "Flicker Detection Stopped" },
         Cmd.stopFlickerDetection, none)
    | IpcResult.resolved false e =>
        ({ st with status := "Error: " ++ e }, Cmd.stopFlickerDetection, none)
    | IpcResult.rejected m => (st, Cmd.stopFlickerDetection, some m)

/-- One `send-command` invocation inside the recipe loop: the resolved
result object is ignored by the source (`await` without inspecting it);
only a rejected promise throws. -/
def sendStep (st : RState) (k : ℕ) (env : ℕ → IpcResult) (ch : Char) :
    RState × ℕ × List TraceEv × Option String :=
  match env k with
  | IpcResult.resolved _ _ =>
      (st, k + 1, [TraceEv.invoke (Cmd.sendCommand ch)], none)
  | IpcResult.rejected m =>
      (st, k + 1, [TraceEv.invoke (Cmd.sendCommand ch)], some m)

/-- The `switch (step.type)` body of `runRecipe` for one step: returns
the new renderer state, the next invocation index, the events of this
step, and the thrown error if its awaited promise rejected. -/
def execStep (st : RState) (k : ℕ) (env : ℕ → IpcResult) :
    RecipeStep → RState × ℕ × List TraceEv × Option String
  | RecipeStep.startFlicker =>
      if st.isFlickerDetectionRunning = false then
        let r := toggleFlickerDetection st (env k)
        (r.1, k + 1, [TraceEv.invoke r.2.1], r.2.2)
      else (st, k, [], none)
  | RecipeStep.endFlicker =>
      if st.isFlickerDetectionRunning = true then
        let r := toggleFlickerDetection st (env k)
        (r.1, k + 1, [TraceEv.invoke r.2.1], r.2.2)
      else (st, k, [], none)
  | RecipeStep.connectUSB => sendStep st k env 'c'
  | RecipeStep.disconnectUSB => sendStep st k env 'd'
  | RecipeStep.sleep => sendStep st k env 's'
  | RecipeStep.wake => sendStep st k env 'w'
  | RecipeStep.delay d => (st, k, [TraceEv.wait (d * 1000)], none)

/-- The `for (const step of recipe)` loop: after a non-throwing step the
fixed 100 ms settle pause runs and the loop continues; a thrown error is
caught, the status is set to the failure reason, and the loop breaks
(no settle pause, no further steps). -/
def runRecipeAux (st : RState) (k : ℕ) (env : ℕ → IpcResult) :
    List RecipeStep → RState × ℕ × List TraceEv
  | [] => (st, k, [])
  | s :: rest =>
      let r := execStep st k env s
      match r.2.2.2 with
      | some m => ({ r.1 with status := "Recipe Error: " ++ m }, r.2.1, r.2.2.1)
      | none =>
          let r2 := runRecipeAux r.1 r.2.1 env rest
          (r2.1, r2.2.1, r.2.2.1 ++ TraceEv.wait 100 :: r2.2.2)

/-- `runRecipe`: sets `isRunningRecipe`, runs the loop, clears
`isRunningRecipe`.  There is no check of the prior `isRunningRecipe`
value inside the function itself. -/
def runRecipe (st : RState) (env : ℕ → IpcResult) (recipe : List RecipeStep) :
    RState × List TraceEv :=
  let r := runRecipeAux { st with isRunningRecipe := true } 0 env recipe
  ({ r.1 with isRunningRecipe := false }, r.2.2)

/-- The Run Recipe button's `disabled` attribute:
`isRunningRecipe || recipe.length === 0`. -/
def runRecipeButtonDisabled (st : RState) (recipe : List RecipeStep) : Bool :=
  st.isRunningRecipe || recipe.length == 0

/-- A click on the Run Recipe button: a disabled button does nothing;
otherwise it calls `runRecipe`. -/
def clickRunRecipe (st : RState) (env : ℕ → IpcResult)
    (recipe : List RecipeStep) : RState × List TraceEv :=
  if runRecipeButtonDisabled st recipe then (st, []) else runRecipe st env recipe

/-- `true` when every step of the list executes without a thrown error
from this state and invocation index on. -/
def cleanRun (st : RState) (k : ℕ) (env : ℕ → IpcResult) :
    List RecipeStep → Bool
  | [] => true
  | s :: rest =>
      let r := execStep st k env s
      match r.2.2.2 with
      | some _ => false
      | none => cleanRun r.1 r.2.1 env rest

/-- Renderer state before any recipe runs. -/
def idleState : RState :=
  { isRunningRecipe := false, isFlickerDetectionRunning := false,
    status := "Disconnected" }

/-- An environment in which every IPC promise resolves successfully. -/
def envOK : ℕ → IpcResult := fun _ => IpcResult.resolved true ""

/-- An environment in which every IPC promise resolves with a reported
failure, as the `send-command` handler does when the port is closed. -/
def envPortClosed : ℕ → IpcResult :=
  fun _ => IpcResult.resolved false "Serial port is not open"

/-!
## Helper lemmas about the detector step
-/

lemma jsAbs_mul100 (x : JSNum) : jsAbs (jsMul100 x) = jsMul100 (jsAbs x) := by
  have h100 : |(100 : ℚ)| = 100 := by norm_num
  cases x <;> simp [jsAbs, jsMul100, abs_mul, h100]

lemma jsAbs_div_sub (a b c : ℚ) : jsAbs (jsDiv (a - b) c) = jsAbs (jsDiv (b - a) c) := by
  unfold jsDiv
  by_cases hc : c = 0
  · rcases lt_trichotomy a b with h | h | h
    · have h1 : ¬ (0 < a - b) := by linarith
      have h2 : a - b < 0 := by linarith
      have h3 : 0 < b - a := by linarith
      simp [hc, h1, h2, h3, jsAbs]
    · subst h
      simp [hc, jsAbs]
    · have h1 : 0 < a - b := by linarith
      have h2 : ¬ (0 < b - a) := by linarith
      have h3 : b - a < 0 := by linarith
      simp [hc, h1, h2, h3, jsAbs]
  · simp [hc, jsAbs, abs_div, abs_sub_comm]

lemma jsGt_not_lt (x : JSNum) (t : ℚ) (h : jsGt x t = true) : jsLt x t = false := by
  cases x <;> simp [jsGt, jsLt] at h ⊢
  exact le_of_lt h

lemma jsMax_self (x : JSNum) : jsMax x x = x := by
  cases x <;> simp [jsMax]

/-- The opening condition of the source:
`Math.abs(percentChange) > FLICKER_THRESHOLD` where
`percentChange = ((lastValue - currentValue) / lastValue) * 100`. -/
def openCond (p v : ℚ) : Bool :=
  jsGt (jsAbs (jsMul100 (jsDiv (p - v) p))) FLICKER_THRESHOLD

/-- The closing condition of the source:
`Math.abs((currentValue - initialValue) / initialValue) * 100 < FLICKER_THRESHOLD`. -/
def closesAt (b v : ℚ) : Bool :=
  jsLt (jsMul100 (jsAbs (jsDiv (v - b) b))) FLICKER_THRESHOLD

/-- The sample that opens a run can never also close it: the return
change computed at the opening sample is the very quantity whose
exceeding the threshold opened the run. -/
lemma open_not_close (p v : ℚ) (h : openCond p v = true) : closesAt p v = false := by
  unfold closesAt
  rw [jsAbs_div_sub v p p, ← jsAbs_mul100]
  exact jsGt_not_lt _ _ h

lemma stepChannel_noLast (s : SensorId) (af : Option FlickerRun) (count now : ℕ) (v : ℚ) :
    stepChannel s ⟨none, af⟩ count now v = (⟨some v, af⟩, count, []) := rfl

/-- One step with an open run: the open-branch is skipped, the run's
extrema are updated, and the run closes exactly when `closesAt
run.initialValue v`; `startTime` and `initialValue` never change. -/
lemma stepChannel_open_run (s : SensorId) (p : ℚ) (run : FlickerRun)
    (count now : ℕ) (v : ℚ) :
    stepChannel s ⟨some p, some run⟩ count now v =
      if closesAt run.initialValue v then
        (⟨some v, none⟩, count + 1,
         [{ sensor := s, startTime := run.startTime, endTime := now,
            initialValue := run.initialValue, minimumValue := min run.minValue v,
            percentChange := jsMax run.maxPercentChange
              (jsAbs (jsMul100 (jsDiv (p - v) p))) }])
      else
        (⟨some v, some { startTime := run.startTime, initialValue := run.initialValue,
                         minValue := min run.minValue v,
                         maxPercentChange := jsMax run.maxPercentChange
                           (jsAbs (jsMul100 (jsDiv (p - v) p))) }⟩,
         count, []) := by
  simp only [stepChannel, closesAt, Option.isNone_some, Bool.and_false,
    Bool.false_eq_true, if_false]

/-- One step with no open run: either the deviation exceeds the
threshold and a run opens at this tick (and by `open_not_close` stays
open through this step), or nothing happens; no event is ever emitted
and the count never moves at such a step. -/
lemma stepChannel_no_open (s : SensorId) (p : ℚ) (count now : ℕ) (v : ℚ) :
    stepChannel s ⟨some p, none⟩ count now v =
      if openCond p v then
        (⟨some v, some { startTime := now, initialValue := p, minValue := v,
                         maxPercentChange := jsAbs (jsMul100 (jsDiv (p - v) p)) }⟩,
         count, [])
      else (⟨some v, none⟩, count, []) := by
  by_cases hopen : openCond p v = true
  · have hclose := open_not_close p v hopen
    unfold openCond at hopen
    simp only [stepChannel, Option.isNone_none, Bool.and_true, hopen, if_true, min_self,
      jsMax_self, closesAt] at hclose ⊢
    simp only [hclose, Bool.false_eq_true, if_false, openCond, hopen, if_true]
  · have hopen2 : openCond p v = false := by
      simpa using hopen
    unfold openCond at hopen2
    simp only [stepChannel, Option.isNone_none, Bool.and_true, hopen2,
      Bool.false_eq_true, if_false, openCond]

lemma processChannel_nil (s : SensorId) (st : ChannelState) (count n0 : ℕ) :
    processChannel s st count n0 [] = (st, count, []) := rfl

lemma processChannel_cons (s : SensorId) (st : ChannelState) (count n0 : ℕ)
    (v : ℚ) (vs : List ℚ) :
    processChannel s st count n0 (v :: vs) =
      ((processChannel s (stepChannel s st count n0 v).1
          (stepChannel s st count n0 v).2.1 (n0 + 1) vs).1,
       (processChannel s (stepChannel s st count n0 v).1
          (stepChannel s st count n0 v).2.1 (n0 + 1) vs).2.1,
       (stepChannel s st count n0 v).2.2 ++
         (processChannel s (stepChannel s st count n0 v).1
            (stepChannel s st count n0 v).2.1 (n0 + 1) vs).2.2) := rfl

lemma stepChannel_count (s : SensorId) (st : ChannelState) (count now : ℕ) (v : ℚ) :
    (stepChannel s st count now v).2.1 =
      count + ((stepChannel s st count now v).2.2).length
    ∧ ((stepChannel s st count now v).2.2).length ≤ 1 := by
  obtain ⟨lv, af⟩ := st
  cases lv with
  | none => simp [stepChannel_noLast]
  | some p =>
      cases af with
      | none =>
          rw [stepChannel_no_open]
          split <;> simp
      | some run =>
          rw [stepChannel_open_run]
          split <;> simp

lemma processChannel_count (s : SensorId) (vs : List ℚ) :
    ∀ (st : ChannelState) (count n0 : ℕ),
      (processChannel s st count n0 vs).2.1 =
        count + ((processChannel s st count n0 vs).2.2).length := by
  induction vs with
  | nil => intro st count n0; simp [processChannel_nil]
  | cons v vs ih =>
      intro st count n0
      rw [processChannel_cons]
      have h1 := (stepChannel_count s st count n0 v).1
      have h2 := ih (stepChannel s st count n0 v).1 (stepChannel s st count n0 v).2.1 (n0 + 1)
      simp only [List.length_append]
      omega

/-!
## Detector claims
-/

/-- Claim C4 (confirmed): each sensor channel has at most one open
FlickerRun at any time.  The channel state holds at most one run by
construction (`activeFlicker : Option FlickerRun`); the substantive
content is that a step never replaces an open run by a different one: a
run open after a step either was opened at this step from a channel
with no open run, or is the continuation of the run already open, with
`startTime` and `initialValue` unchanged; and a run that closes is
cleared (`activeFlicker = none`, which the closing branch of
`stepChannel` sets). -/
theorem at_most_one_open_run (s : SensorId) (st : ChannelState)
    (count now : ℕ) (v : ℚ) (run2 : FlickerRun)
    (h : (stepChannel s st count now v).1.activeFlicker = some run2) :
    st.activeFlicker = none ∨
      ∃ run1, st.activeFlicker = some run1 ∧ run2.startTime = run1.startTime
        ∧ run2.initialValue = run1.initialValue := by
  obtain ⟨lv, af⟩ := st
  cases lv with
  | none =>
      rw [stepChannel_noLast] at h
      cases af with
      | none => exact Or.inl rfl
      | some run1 =>
          simp only at h
          exact Or.inr ⟨run1, rfl, by rw [Option.some_inj.mp h], by rw [Option.some_inj.mp h]⟩
  | some p =>
      cases af with
      | none => exact Or.inl rfl
      | some run1 =>
          rw [stepChannel_open_run] at h
          by_cases hc : closesAt run1.initialValue v = true
          · rw [if_pos hc] at h
            simp at h
          · rw [if_neg hc] at h
            simp only [Option.some_inj] at h
            exact Or.inr ⟨run1, rfl, by rw [← h], by rw [← h]⟩

theorem at_most_one_open_run_witness :
    (stepChannel SensorId.sensor1 ⟨some 100, none⟩ 0 5 80).1.activeFlicker =
      some { startTime := 5, initialValue := 100, minValue := 80,
             maxPercentChange := JSNum.fin 20 }
    ∧ ((⟨some 100, none⟩ : ChannelState).activeFlicker = none ∨
       ∃ run1, (⟨some (100:ℚ), none⟩ : ChannelState).activeFlicker = some run1
         ∧ (5:ℕ) = run1.startTime ∧ (100:ℚ) = run1.initialValue) :=
  ⟨by decide,
   at_most_one_open_run SensorId.sensor1 ⟨some 100, none⟩ 0 5 80
     { startTime := 5, initialValue := 100, minValue := 80,
       maxPercentChange := JSNum.fin 20 } (by decide)⟩

/-- Claim C5 (confirmed): after processing any sample list, the flicker
count equals its starting value (zero after a reset) plus the number of
events emitted — one per closed run — and a single step emits at most
one event and bumps the count by exactly the number of events it emits,
so the count never decreases and moves by one exactly at a close.
Nothing but `resetFlickerDetection` (claim C9) writes zero back. -/
theorem flicker_count_exact (s : SensorId) (st : ChannelState)
    (count n0 : ℕ) (vs : List ℚ) :
    (processChannel s st count n0 vs).2.1 =
      count + ((processChannel s st count n0 vs).2.2).length
    ∧ ∀ (now : ℕ) (v : ℚ),
        (stepChannel s st count now v).2.1 =
          count + ((stepChannel s st count now v).2.2).length
        ∧ ((stepChannel s st count now v).2.2).length ≤ 1 :=
  ⟨processChannel_count s vs st count n0, fun now v => stepChannel_count s st count now v⟩

/-- Claim C9 (confirmed): `resetFlickerDetection` restores both channels
to `{lastValue: none, activeFlicker: none}` and zeroes both per-sensor
flicker counts, whatever the prior detector state. -/
theorem reset_restores_initial_state (st : DetectorState) :
    (resetFlickerDetection st).sensor1.lastValue = none
    ∧ (resetFlickerDetection st).sensor1.activeFlicker = none
    ∧ (resetFlickerDetection st).sensor2.lastValue = none
    ∧ (resetFlickerDetection st).sensor2.activeFlicker = none
    ∧ (resetFlickerDetection st).count1 = 0
    ∧ (resetFlickerDetection st).count2 = 0 :=
  ⟨rfl, rfl, rfl, rfl, rfl, rfl⟩

/-- Claim C2 (corrected), counterexample: the source has no `p == 0`
guard.  Processing `[0, 50]` from a reset channel reaches the second
sample with prior value `p = 0`; the percent change evaluates to
`-Infinity`, its absolute value `Infinity` exceeds the threshold, and a
run opens (`initialValue = 0`, `maxPercentChange = Infinity`) — the
evaluation is not skipped, contradicting the claim. -/
theorem zero_prior_run_opens_cex :
    (processChannel SensorId.sensor1 initialChannel 0 0 [0, 50]).1.activeFlicker =
      some { startTime := 1, initialValue := 0, minValue := 50,
             maxPercentChange := JSNum.pinf }
    ∧ (processChannel SensorId.sensor1 initialChannel 0 0 [0, 50]).1.activeFlicker ≠
        none := by
  decide

/-- Claim C2 (corrected), amended: a sample whose prior value is 0 does
not crash — JavaScript division by zero yields a signed infinity — but
deviation evaluation is not skipped: when the incoming value is nonzero
and no run is open, a run opens at this tick with `initialValue = 0`,
`minValue = v` and infinite `maxPercentChange`, and stays open through
this step (its return change is also infinite); no event is emitted and
the count is unchanged. -/
theorem zero_prior_opens_infinite_run (s : SensorId) (st : ChannelState)
    (count now : ℕ) (v : ℚ)
    (h0 : st.lastValue = some 0) (h1 : st.activeFlicker = none) (hv : v ≠ 0) :
    stepChannel s st count now v =
      (⟨some v, some { startTime := now, initialValue := 0, minValue := v,
                       maxPercentChange := JSNum.pinf }⟩, count, []) := by
  obtain ⟨lv, af⟩ := st
  simp only at h0 h1
  subst h0
  subst h1
  have habs : jsAbs (jsMul100 (jsDiv (0 - v) 0)) = JSNum.pinf := by
    rcases lt_trichotomy v 0 with h | h | h
    · simp [jsDiv, jsMul100, jsAbs, h]
    · exact absurd h hv
    · have hn : ¬ v < 0 := not_lt.mpr h.le
      simp [jsDiv, jsMul100, jsAbs, h, hn]
  have hopen : openCond 0 v = true := by
    unfold openCond
    rw [habs]
    rfl
  rw [stepChannel_no_open, if_pos hopen, habs]

theorem zero_prior_opens_infinite_run_witness :
    ((⟨some 0, none⟩ : ChannelState).lastValue = some 0
      ∧ (⟨some (0:ℚ), none⟩ : ChannelState).activeFlicker = none
      ∧ (50:ℚ) ≠ 0)
    ∧ stepChannel SensorId.sensor1 ⟨some 0, none⟩ 3 7 50 =
        (⟨some 50, some { startTime := 7, initialValue := 0, minValue := 50,
                          maxPercentChange := JSNum.pinf }⟩, 3, []) :=
  ⟨⟨rfl, rfl, by decide⟩,
   zero_prior_opens_infinite_run SensorId.sensor1 ⟨some 0, none⟩ 3 7 50 rfl rfl
     (by decide)⟩

/-- Claim C1 (corrected), counterexample: on Scenario A the single
emitted event's `percentChange` is 25, not 20: at the closing sample
(80 → 100) the per-sample change is `|(80 - 100) / 80| * 100 = 25`,
which updates `maxPercentChange` before the close check runs. -/
theorem scenarioA_percent_change_cex :
    (handleSeq freshDetector 0 scenarioA).2.map FlickerEvent.percentChange =
      [JSNum.fin 25]
    ∧ JSNum.fin (25:ℚ) ≠ JSNum.fin 20 := by
  decide

/-- Claim C1 (corrected), amended: for sensor1 samples
`[100, 100, 80, 100]` from a freshly reset detector with an active
session (sensor2 held at 100), the first sample only sets the baseline,
sample 3 opens a run with `initialValue = 100` and `minValue = 80`, and
sample 4 closes it, emitting exactly one event with
`minimumValue = 80` (rendered `80.000`) — but `percentChange = 25`
(rendered `25.00`), because the closing sample's own percent change
(from prior value 80 back to 100) is 25 and is folded into
`maxPercentChange` before the run closes. -/
theorem scenarioA_amended :
    (handleSeq freshDetector 0 (scenarioA.take 1)).1.sensor1 =
      { lastValue := some 100, activeFlicker := none }
    ∧ (handleSeq freshDetector 0 (scenarioA.take 1)).2 = []
    ∧ (handleSeq freshDetector 0 (scenarioA.take 3)).1.sensor1.activeFlicker =
        some { startTime := 2, initialValue := 100, minValue := 80,
               maxPercentChange := JSNum.fin 20 }
    ∧ (handleSeq freshDetector 0 scenarioA).2 =
        [{ sensor := SensorId.sensor1, startTime := 2, endTime := 3,
           initialValue := 100, minimumValue := 80, percentChange := JSNum.fin 25 }]
    ∧ (handleSeq freshDetector 0 scenarioA).1.count1 = 1
    ∧ (handleSeq freshDetector 0 scenarioA).1.sensor1.activeFlicker = none := by
  decide

/-- Any run open in a reachable channel state was started at an earlier
tick, so every event it eventually emits closes strictly after it
opened.  The key step fact is `open_not_close`: a run cannot open and
close at the same sample. -/
lemma events_end_after_start_aux (s : SensorId) (vs : List ℚ) :
    ∀ (st : ChannelState) (count n0 : ℕ),
      (∀ r, st.activeFlicker = some r → r.startTime < n0) →
      ∀ e ∈ (processChannel s st count n0 vs).2.2, e.startTime < e.endTime := by
  induction vs with
  | nil =>
      intro st count n0 _ e he
      rw [processChannel_nil] at he
      simp at he
  | cons v vs ih =>
      intro st count n0 hinv e he
      rw [processChannel_cons] at he
      obtain ⟨lv, af⟩ := st
      cases lv with
      | none =>
          rw [stepChannel_noLast] at he
          simp only [List.nil_append] at he
          exact ih ⟨some v, af⟩ count (n0 + 1)
            (fun r hr => Nat.lt_succ_of_lt (hinv r hr)) e he
      | some p =>
          cases af with
          | none =>
              rw [stepChannel_no_open] at he
              by_cases hop : openCond p v = true
              · rw [if_pos hop] at he
                simp only [List.nil_append] at he
                refine ih _ _ _ ?_ e he
                intro r hr
                simp only [Option.some_inj] at hr
                rw [← hr]
                exact Nat.lt_succ_self n0
              · rw [if_neg hop] at he
                simp only [List.nil_append] at he
                refine ih _ _ _ ?_ e he
                intro r hr
                simp at hr
          | some run =>
              rw [stepChannel_open_run] at he
              by_cases hc : closesAt run.initialValue v = true
              · rw [if_pos hc] at he
                simp only [List.singleton_append, List.mem_cons] at he
                rcases he with he | he
                · rw [he]
                  exact hinv run rfl
                · refine ih _ _ _ ?_ e he
                  intro r hr
                  simp at hr
              · rw [if_neg hc] at he
                simp only [List.nil_append] at he
                refine ih _ _ _ ?_ e he
                intro r hr
                simp only [Option.some_inj] at hr
                rw [← hr]
                exact Nat.lt_succ_of_lt (hinv run rfl)

/-- Claim C10 (confirmed): from a reset channel, a run never closes at
the sample at which it opens, so every emitted event's closing tick is
strictly later than its opening tick.  (The nonzero-values hypothesis of
the claim is not even needed: at the opening sample the return change
equals the opening deviation — `open_not_close` — also in the
division-by-zero cases, where both are infinite or NaN.) -/
theorem event_end_after_start (s : SensorId) (vs : List ℚ) (count n0 : ℕ)
    (h : ∀ v ∈ vs, v ≠ 0) :
    ∀ e ∈ (processChannel s initialChannel count n0 vs).2.2,
      e.startTime < e.endTime :=
  events_end_after_start_aux s vs initialChannel count n0
    (by intro r hr; simp [initialChannel] at hr)

theorem event_end_after_start_witness :
    (∀ v ∈ ([100, 80, 100] : List ℚ), v ≠ 0)
    ∧ ∀ e ∈ (processChannel SensorId.sensor1 initialChannel 0 0 [100, 80, 100]).2.2,
        e.startTime < e.endTime :=
  ⟨by decide, event_end_after_start SensorId.sensor1 [100, 80, 100] 0 0 (by decide)⟩

/-- For a nonzero baseline the code's closing condition coincides with
the mathematical return-to-baseline test. -/
lemma closesAt_iff (b v : ℚ) (hb : b ≠ 0) :
    closesAt b v = true ↔ |(v - b) / b| * 100 < FLICKER_THRESHOLD := by
  simp [closesAt, jsDiv, hb, jsAbs, jsMul100, jsLt]

/-- Core induction for claim C6: from a state with an open run (baseline
`b`, start tick `T`) and some prior value, processing samples `us` on
which the closing condition fails and then one sample `w` on which it
holds closes the run exactly at `w`, emits one event there, and keeps
the run open (same `T`, same `b`, no events) after every proper prefix
of `us`. -/
lemma run_closes_aux (s : SensorId) (T : ℕ) (b : ℚ) (w : ℚ)
    (hw : closesAt b w = true) (us : List ℚ) :
    ∀ (st : ChannelState) (p : ℚ) (run : FlickerRun) (count n0 : ℕ),
      st.lastValue = some p → st.activeFlicker = some run →
      run.startTime = T → run.initialValue = b →
      (∀ v ∈ us, closesAt b v = false) →
      (((processChannel s st count n0 (us ++ [w])).1.activeFlicker = none
        ∧ (processChannel s st count n0 (us ++ [w])).2.1 = count + 1
        ∧ ∃ mv mpc, (processChannel s st count n0 (us ++ [w])).2.2 =
            [{ sensor := s, startTime := T, endTime := n0 + us.length,
               initialValue := b, minimumValue := mv, percentChange := mpc }])
       ∧ ∀ k, k ≤ us.length →
           (∃ run2, (processChannel s st count n0 (us.take k)).1.activeFlicker = some run2
             ∧ run2.startTime = T ∧ run2.initialValue = b)
           ∧ (processChannel s st count n0 (us.take k)).2.2 = []) := by
  induction us with
  | nil =>
      intro st p run count n0 hl ha hT hb2 _
      obtain ⟨lv, af⟩ := st
      simp only at hl ha
      subst hl
      subst ha
      have hstep : stepChannel s ⟨some p, some run⟩ count n0 w =
          (⟨some w, none⟩, count + 1,
           [{ sensor := s, startTime := run.startTime, endTime := n0,
              initialValue := run.initialValue, minimumValue := min run.minValue w,
              percentChange := jsMax run.maxPercentChange
                (jsAbs (jsMul100 (jsDiv (p - w) p))) }]) := by
        rw [stepChannel_open_run, hb2, if_pos hw]
      refine ⟨?_, ?_⟩
      · simp only [List.nil_append]
        rw [processChannel_cons, hstep]
        refine ⟨rfl, rfl, min run.minValue w,
          jsMax run.maxPercentChange (jsAbs (jsMul100 (jsDiv (p - w) p))), ?_⟩
        simp [processChannel_nil, hT, hb2]
      · intro k hk
        have hk0 : k = 0 := Nat.le_zero.mp hk

        subst hk0
        simp only [List.take_zero]
        rw [processChannel_nil]
        exact ⟨⟨run, rfl, hT, hb2⟩, rfl⟩
  | cons u us ih =>
      intro st p run count n0 hl ha hT hb2 hus
      obtain ⟨lv, af⟩ := st
      simp only at hl ha
      subst hl
      subst ha
      have hu : closesAt b u = false := hus u (List.mem_cons_self u us)
      have hstep : stepChannel s ⟨some p, some run⟩ count n0 u =
          (⟨some u, some { startTime := run.startTime, initialValue := run.initialValue,
                           minValue := min run.minValue u,
                           maxPercentChange := jsMax run.maxPercentChange
                             (jsAbs (jsMul100 (jsDiv (p - u) p))) }⟩,
           count, []) := by
        rw [stepChannel_open_run, hb2, hu]
        simp
      have IH := ih ⟨some u, some ⟨run.startTime, run.initialValue,
            min run.minValue u, jsMax run.maxPercentChange
              (jsAbs (jsMul100 (jsDiv (p - u) p)))⟩⟩
          u ⟨run.startTime, run.initialValue, min run.minValue u,
            jsMax run.maxPercentChange (jsAbs (jsMul100 (jsDiv (p - u) p)))⟩
          count (n0 + 1) rfl rfl hT hb2
          (fun v hv => hus v (List.mem_cons_of_mem u hv))
      refine ⟨?_, ?_⟩
      · simp only [List.cons_append]
        rw [processChannel_cons, hstep]
        simp only [List.nil_append, List.length_cons]
        have hlen : n0 + 1 + us.length = n0 + (us.length + 1) := by omega
        rw [← hlen]
        exact IH.1
      · intro k hk
        cases k with
        | zero =>
            simp only [List.take_zero]
            rw [processChannel_nil]
            exact ⟨⟨run, rfl, hT, hb2⟩, rfl⟩
        | succ k2 =>
            have hk2 : k2 ≤ us.length := by
              simpa using hk
            simp only [List.take_succ_cons]
            rw [processChannel_cons, hstep]
            simp only [List.nil_append]
            exact IH.2 k2 hk2

/-- Claim C6 (confirmed): a run open with baseline `initialValue ≠ 0`
closes exactly at the first subsequent sample `w` whose value returns
within the threshold of the baseline
(`|(w - initialValue)/initialValue| * 100 < 1`), emitting one
FlickerEvent at that sample's tick; after every earlier sample the run
is still open with its `startTime` and `initialValue` unchanged and no
event has been emitted.  (The claim's closing formula presupposes a
nonzero baseline; `closesAt_iff` ties it to the code's condition.) -/
theorem run_closes_at_first_return (s : SensorId) (st : ChannelState)
    (p : ℚ) (run : FlickerRun) (count n0 : ℕ) (us : List ℚ) (w : ℚ)
    (hl : st.lastValue = some p) (ha : st.activeFlicker = some run)
    (hb : run.initialValue ≠ 0)
    (hus : ∀ v ∈ us,
      ¬ (|(v - run.initialValue) / run.initialValue| * 100 < FLICKER_THRESHOLD))
    (hw : |(w - run.initialValue) / run.initialValue| * 100 < FLICKER_THRESHOLD) :
    ((processChannel s st count n0 (us ++ [w])).1.activeFlicker = none
      ∧ (processChannel s st count n0 (us ++ [w])).2.1 = count + 1
      ∧ ∃ mv mpc, (processChannel s st count n0 (us ++ [w])).2.2 =
          [{ sensor := s, startTime := run.startTime, endTime := n0 + us.length,
             initialValue := run.initialValue, minimumValue := mv,
             percentChange := mpc }])
    ∧ ∀ k, k ≤ us.length →
        (∃ run2, (processChannel s st count n0 (us.take k)).1.activeFlicker = some run2
          ∧ run2.startTime = run.startTime
          ∧ run2.initialValue = run.initialValue)
        ∧ (processChannel s st count n0 (us.take k)).2.2 = [] := by
  have hw2 : closesAt run.initialValue w = true := (closesAt_iff _ _ hb).mpr hw
  have hus2 : ∀ v ∈ us, closesAt run.initialValue v = false := by
    intro v hv
    by_cases h : closesAt run.initialValue v = true
    · exact absurd ((closesAt_iff _ _ hb).mp h) (hus v hv)
    · simpa using h
  exact run_closes_aux s run.startTime run.initialValue w hw2 us st p run count n0
    hl ha rfl rfl hus2

theorem run_closes_at_first_return_witness :
    ((⟨some 80, some ⟨0, 100, 80, JSNum.fin 20⟩⟩ : ChannelState).lastValue = some 80
      ∧ (⟨some (80:ℚ), some ⟨0, 100, 80, JSNum.fin 20⟩⟩ : ChannelState).activeFlicker =
          some ⟨0, 100, 80, JSNum.fin 20⟩
      ∧ (100:ℚ) ≠ 0
      ∧ (∀ v ∈ ([80] : List ℚ), ¬ (|(v - 100) / 100| * 100 < FLICKER_THRESHOLD))
      ∧ |((100:ℚ) - 100) / 100| * 100 < FLICKER_THRESHOLD)
    ∧ (((processChannel SensorId.sensor1 ⟨some 80, some ⟨0, 100, 80, JSNum.fin 20⟩⟩
          0 2 ([80] ++ [100])).1.activeFlicker = none
        ∧ (processChannel SensorId.sensor1 ⟨some 80, some ⟨0, 100, 80, JSNum.fin 20⟩⟩
            0 2 ([80] ++ [100])).2.1 = 0 + 1
        ∧ ∃ mv mpc, (processChannel SensorId.sensor1
              ⟨some 80, some ⟨0, 100, 80, JSNum.fin 20⟩⟩ 0 2 ([80] ++ [100])).2.2 =
            [{ sensor := SensorId.sensor1, startTime := 0, endTime := 2 + [(80:ℚ)].length,
               initialValue := 100, minimumValue := mv, percentChange := mpc }])
       ∧ ∀ k, k ≤ [(80:ℚ)].length →
           (∃ run2, (processChannel SensorId.sensor1
                ⟨some 80, some ⟨0, 100, 80, JSNum.fin 20⟩⟩ 0 2
                ([(80:ℚ)].take k)).1.activeFlicker = some run2
             ∧ run2.startTime = 0 ∧ run2.initialValue = 100)
           ∧ (processChannel SensorId.sensor1
                ⟨some 80, some ⟨0, 100, 80, JSNum.fin 20⟩⟩ 0 2 ([(80:ℚ)].take k)).2.2 = []) :=
  ⟨⟨rfl, rfl, by decide, by decide, by decide⟩,
   run_closes_at_first_return SensorId.sensor1
     ⟨some 80, some ⟨0, 100, 80, JSNum.fin 20⟩⟩ 80 ⟨0, 100, 80, JSNum.fin 20⟩
     0 2 [80] 100 rfl rfl (by decide) (by decide) (by decide)⟩

/-!
## Helper lemmas about the recipe executor
-/

lemma runRecipeAux_nil (st : RState) (k : ℕ) (env : ℕ → IpcResult) :
    runRecipeAux st k env [] = (st, k, []) := rfl

lemma runRecipeAux_cons_none (st : RState) (k : ℕ) (env : ℕ → IpcResult)
    (s : RecipeStep) (rest : List RecipeStep)
    (h : (execStep st k env s).2.2.2 = none) :
    runRecipeAux st k env (s :: rest) =
      ((runRecipeAux (execStep st k env s).1 (execStep st k env s).2.1 env rest).1,
       (runRecipeAux (execStep st k env s).1 (execStep st k env s).2.1 env rest).2.1,
       (execStep st k env s).2.2.1 ++ TraceEv.wait 100 ::
         (runRecipeAux (execStep st k env s).1 (execStep st k env s).2.1 env rest).2.2) := by
  simp only [runRecipeAux]
  rw [h]

lemma runRecipeAux_cons_some (st : RState) (k : ℕ) (env : ℕ → IpcResult)
    (s : RecipeStep) (rest : List RecipeStep) (m : String)
    (h : (execStep st k env s).2.2.2 = some m) :
    runRecipeAux st k env (s :: rest) =
      ({ (execStep st k env s).1 with status := "Recipe Error: " ++ m },
       (execStep st k env s).2.1, (execStep st k env s).2.2.1) := by
  simp only [runRecipeAux]
  rw [h]

lemma cleanRun_cons_none (st : RState) (k : ℕ) (env : ℕ → IpcResult)
    (s : RecipeStep) (rest : List RecipeStep)
    (h : (execStep st k env s).2.2.2 = none) :
    cleanRun st k env (s :: rest) =
      cleanRun (execStep st k env s).1 (execStep st k env s).2.1 env rest := by
  simp only [cleanRun]
  rw [h]

lemma cleanRun_cons_some (st : RState) (k : ℕ) (env : ℕ → IpcResult)
    (s : RecipeStep) (rest : List RecipeStep) (m : String)
    (h : (execStep st k env s).2.2.2 = some m) :
    cleanRun st k env (s :: rest) = false := by
  simp only [cleanRun]
  rw [h]

/-- Executing `pre ++ post` when `pre` runs clean is executing `pre`,
then `post` from the resulting state, with the traces concatenated in
order: the loop handles one step at a time, in input order. -/
lemma runRecipeAux_append (env : ℕ → IpcResult) (pre : List RecipeStep) :
    ∀ (st : RState) (k : ℕ) (post : List RecipeStep),
      cleanRun st k env pre = true →
      runRecipeAux st k env (pre ++ post) =
        ((runRecipeAux (runRecipeAux st k env pre).1
            (runRecipeAux st k env pre).2.1 env post).1,
         (runRecipeAux (runRecipeAux st k env pre).1
            (runRecipeAux st k env pre).2.1 env post).2.1,
         (runRecipeAux st k env pre).2.2 ++
           (runRecipeAux (runRecipeAux st k env pre).1
              (runRecipeAux st k env pre).2.1 env post).2.2) := by
  induction pre with
  | nil =>
      intro st k post _
      simp [runRecipeAux_nil]
  | cons s0 pre ih =>
      intro st k post hclean
      cases hr : (execStep st k env s0).2.2.2 with
      | some m =>
          rw [cleanRun_cons_some st k env s0 pre m hr] at hclean
          exact absurd hclean (by simp)
      | none =>
          rw [cleanRun_cons_none st k env s0 pre hr] at hclean
          rw [List.cons_append, runRecipeAux_cons_none st k env s0 (pre ++ post) hr,
            runRecipeAux_cons_none st k env s0 pre hr]
          rw [ih (execStep st k env s0).1 (execStep st k env s0).2.1 post hclean]
          simp [List.append_assoc]

/-!
## Recipe executor claims
-/

/-- Claim C3 (corrected), counterexample: a recipe action whose
underlying operation *reports* failure does not abort the recipe.  The
`send-command` handler resolves with `{success: false, error: "Serial
port is not open"}` when the port is closed; `runRecipe` ignores the
resolved value, so after ConnectDevice's operation reports failure,
StartFlicker still runs (its invocation appears in the trace). -/
theorem reported_failure_does_not_abort_cex :
    envPortClosed 0 = IpcResult.resolved false "Serial port is not open"
    ∧ (runRecipe idleState envPortClosed
        [RecipeStep.connectUSB, RecipeStep.startFlicker]).2 =
        [TraceEv.invoke (Cmd.sendCommand 'c'), TraceEv.wait 100,
         TraceEv.invoke Cmd.startFlickerDetection, TraceEv.wait 100]
    ∧ TraceEv.invoke Cmd.startFlickerDetection ∈
        (runRecipe idleState envPortClosed
          [RecipeStep.connectUSB, RecipeStep.startFlicker]).2 := by
  decide

/-- Claim C3 (corrected), amended: only a *thrown* error (a rejected
promise) aborts the recipe: if the actions before `s` run clean and
`s`'s awaited operation throws with reason `m`, the remainder of the
recipe never runs (the whole run equals the run of the truncated recipe
`pre ++ [s]`), the failure reason is surfaced in the status as
`"Recipe Error: " ++ m`, and the executor returns to Idle
(`isRunningRecipe = false`).  An operation that merely resolves with
`success: false` does not abort (see the counterexample). -/
theorem recipe_abort_on_thrown (st : RState) (env : ℕ → IpcResult)
    (pre post : List RecipeStep) (s : RecipeStep) (m : String)
    (h1 : cleanRun { st with isRunningRecipe := true } 0 env pre = true)
    (h2 : (execStep (runRecipeAux { st with isRunningRecipe := true } 0 env pre).1
            (runRecipeAux { st with isRunningRecipe := true } 0 env pre).2.1 env s).2.2.2 =
          some m) :
    runRecipe st env (pre ++ s :: post) = runRecipe st env (pre ++ [s])
    ∧ (runRecipe st env (pre ++ s :: post)).1.status = "Recipe Error: " ++ m
    ∧ (runRecipe st env (pre ++ s :: post)).1.isRunningRecipe = false := by
  have e1 := runRecipeAux_append env pre { st with isRunningRecipe := true } 0
    (s :: post) h1
  have e2 := runRecipeAux_append env pre { st with isRunningRecipe := true } 0 [s] h1
  have e3 := runRecipeAux_cons_some _ _ env s post m h2
  have e4 := runRecipeAux_cons_some _ _ env s [] m h2
  simp only [runRecipe]
  rw [e1, e2, e3, e4]
  exact ⟨rfl, rfl, trivial⟩

/-- An environment whose first IPC promise resolves successfully and
whose later ones reject, as when the serial port drops after the first
command. -/
def envThrowSecond : ℕ → IpcResult :=
  fun k => if k = 0 then IpcResult.resolved true ""
           else IpcResult.rejected "Serial port is not open"

theorem recipe_abort_on_thrown_witness :
    (cleanRun { idleState with isRunningRecipe := true } 0 envThrowSecond
        [RecipeStep.connectUSB] = true
      ∧ (execStep (runRecipeAux { idleState with isRunningRecipe := true } 0
            envThrowSecond [RecipeStep.connectUSB]).1
          (runRecipeAux { idleState with isRunningRecipe := true } 0
            envThrowSecond [RecipeStep.connectUSB]).2.1
          envThrowSecond RecipeStep.disconnectUSB).2.2.2 =
        some "Serial port is not open")
    ∧ runRecipe idleState envThrowSecond
        ([RecipeStep.connectUSB] ++ RecipeStep.disconnectUSB :: [RecipeStep.startFlicker]) =
      runRecipe idleState envThrowSecond ([RecipeStep.connectUSB] ++ [RecipeStep.disconnectUSB])
    ∧ (runRecipe idleState envThrowSecond
        ([RecipeStep.connectUSB] ++ RecipeStep.disconnectUSB :: [RecipeStep.startFlicker])).1.status =
      "Recipe Error: " ++ "Serial port is not open"
    ∧ (runRecipe idleState envThrowSecond
        ([RecipeStep.connectUSB] ++ RecipeStep.disconnectUSB :: [RecipeStep.startFlicker])).1.isRunningRecipe =
      false :=
  ⟨⟨by decide, by decide⟩,
   recipe_abort_on_thrown idleState envThrowSecond [RecipeStep.connectUSB]
     [RecipeStep.startFlicker] RecipeStep.disconnectUSB "Serial port is not open"
     (by decide) (by decide)⟩

/-- Claim C7 (confirmed): when the actions before `s` run clean and `s`
does not throw, the full trace is exactly: the trace of the earlier
actions, then `s`'s own events, then the fixed 100 ms settle wait, then
the trace of the remaining actions from the resulting state — i.e.
actions execute strictly in input order, one at a time, each followed
by the settle interval before the next starts; and a `Delay(d)` action's
own events are exactly a `d * 1000` ms suspension, so at least `d`
seconds pass before the next action starts. -/
theorem recipe_sequential_settle (st : RState) (env : ℕ → IpcResult) (k : ℕ)
    (pre post : List RecipeStep) (s : RecipeStep)
    (h1 : cleanRun st k env pre = true)
    (h2 : (execStep (runRecipeAux st k env pre).1
            (runRecipeAux st k env pre).2.1 env s).2.2.2 = none) :
    (runRecipeAux st k env (pre ++ s :: post)).2.2 =
      (runRecipeAux st k env pre).2.2
        ++ (execStep (runRecipeAux st k env pre).1
              (runRecipeAux st k env pre).2.1 env s).2.2.1
        ++ TraceEv.wait 100
          :: (runRecipeAux
                (execStep (runRecipeAux st k env pre).1
                  (runRecipeAux st k env pre).2.1 env s).1
                (execStep (runRecipeAux st k env pre).1
                  (runRecipeAux st k env pre).2.1 env s).2.1 env post).2.2
    ∧ ∀ d, s = RecipeStep.delay d →
        (execStep (runRecipeAux st k env pre).1
            (runRecipeAux st k env pre).2.1 env s).2.2.1 = [TraceEv.wait (d * 1000)] := by
  constructor
  · rw [runRecipeAux_append env pre st k (s :: post) h1]
    rw [runRecipeAux_cons_none _ _ env s post h2]
    simp [List.append_assoc]
  · intro d hd
    subst hd
    rfl

theorem recipe_sequential_settle_witness :
    (cleanRun idleState 0 envOK [RecipeStep.connectUSB] = true
      ∧ (execStep (runRecipeAux idleState 0 envOK [RecipeStep.connectUSB]).1
          (runRecipeAux idleState 0 envOK [RecipeStep.connectUSB]).2.1
          envOK (RecipeStep.delay 5)).2.2.2 = none)
    ∧ ((runRecipeAux idleState 0 envOK
          ([RecipeStep.connectUSB] ++ RecipeStep.delay 5 :: [RecipeStep.disconnectUSB])).2.2 =
        (runRecipeAux idleState 0 envOK [RecipeStep.connectUSB]).2.2
          ++ (execStep (runRecipeAux idleState 0 envOK [RecipeStep.connectUSB]).1
                (runRecipeAux idleState 0 envOK [RecipeStep.connectUSB]).2.1
                envOK (RecipeStep.delay 5)).2.2.1
          ++ TraceEv.wait 100
            :: (runRecipeAux
                  (execStep (runRecipeAux idleState 0 envOK [RecipeStep.connectUSB]).1
                    (runRecipeAux idleState 0 envOK [RecipeStep.connectUSB]).2.1
                    envOK (RecipeStep.delay 5)).1
                  (execStep (runRecipeAux idleState 0 envOK [RecipeStep.connectUSB]).1
                    (runRecipeAux idleState 0 envOK [RecipeStep.connectUSB]).2.1
                    envOK (RecipeStep.delay 5)).2.1
                  envOK [RecipeStep.disconnectUSB]).2.2
       ∧ ∀ d, RecipeStep.delay 5 = RecipeStep.delay d →
           (execStep (runRecipeAux idleState 0 envOK [RecipeStep.connectUSB]).1
              (runRecipeAux idleState 0 envOK [RecipeStep.connectUSB]).2.1
              envOK (RecipeStep.delay 5)).2.2.1 = [TraceEv.wait (d * 1000)]) :=
  ⟨⟨by decide, by decide⟩,
   recipe_sequential_settle idleState envOK 0 [RecipeStep.connectUSB]
     [RecipeStep.disconnectUSB] (RecipeStep.delay 5) (by decide) (by decide)⟩

/-- A renderer state in which a recipe is already Running. -/
def runningState : RState := { idleState with isRunningRecipe := true }

/-- Claim C8 (corrected), counterexample: `runRecipe` itself contains no
Running-state guard.  Invoked while `isRunningRecipe` is already true it
is neither a no-op nor a rejection: the recipe's action still executes
(nonempty trace). -/
theorem runRecipe_unguarded_cex :
    runningState.isRunningRecipe = true
    ∧ (runRecipe runningState envOK [RecipeStep.connectUSB]).2 =
      [TraceEv.invoke (Cmd.sendCommand 'c'), TraceEv.wait 100]
    ∧ (runRecipe runningState envOK [RecipeStep.connectUSB]).2 ≠ [] := by
  decide

/-- Claim C8 (corrected), amended: re-entry is prevented one level up,
at the UI: the Run Recipe button that triggers `runRecipe` is disabled
whenever `isRunningRecipe` is true (or the recipe is empty), so a click
while a recipe is Running is a no-op and two recipes never execute
concurrently through the UI; the `runRecipe` function itself performs
no such check (see the counterexample). -/
theorem run_button_noop_when_running (st : RState) (env : ℕ → IpcResult)
    (recipe : List RecipeStep) (h : st.isRunningRecipe = true) :
    clickRunRecipe st env recipe = (st, []) := by
  simp [clickRunRecipe, runRecipeButtonDisabled, h]

theorem run_button_noop_when_running_witness :
    runningState.isRunningRecipe = true
    ∧ clickRunRecipe runningState envOK [RecipeStep.connectUSB] = (runningState, []) :=
  ⟨rfl, run_button_noop_when_running runningState envOK [RecipeStep.connectUSB] rfl⟩

end Blink
